import Mathlib

/-!
Verification development for the dash-proxy MPD downloader
(source: src/dashproxy.py). The Python program is shallowly embedded:
XML elements become the `Element` structure, attribute values keep
Python's int-or-string distinction (`AttrVal`), fallible operations
(KeyError during `str.format`) return `Except`, and the HTTP fetch
collaborator is an oracle `Nat → String → Nat × String` mapping the
index of the GET call and the URL to a status code and body.
-/

namespace DashProxySpec

/-- Attribute values as the Python code stores them: the manifest parser
yields strings, while the timeline-rebuild loop (dashproxy.py line 290)
stores raw Python ints in `attrib`. -/
inductive AttrVal where
  | str (s : String)
  | int (n : Int)
deriving DecidableEq

/-- Parsed XML element: tag, attribute map (association list, unique keys),
text content, child elements. Mirrors the parts of
`xml.etree.ElementTree.Element` the program uses. -/
structure Element where
  tag : String
  attrib : List (String × AttrVal)
  text : String
  children : List Element

/-- Decimal-digit accumulator for `pyParseInt`. -/
def decValAux : Nat → List Char → Option Nat
  | acc, [] => some acc
  | acc, c :: cs => if c.isDigit then decValAux (acc * 10 + (c.toNat - 48)) cs else none

/-- Value of a nonempty all-digit character list. -/
def decVal : List Char → Option Nat
  | [] => none
  | cs => decValAux 0 cs

/-- Python `int(...)` on a string: optional minus sign then decimal digits.
Every string this development applies it to is a well-formed decimal
numeral (Python raises ValueError on malformed input, which never occurs
on the inputs considered here; malformed input defaults to 0). -/
def pyParseInt (s : String) : Int :=
  match s.toList with
  | [] => 0
  | c :: cs =>
      if c == '-' then -(Int.ofNat ((decVal cs).getD 0))
      else Int.ofNat ((decVal (c :: cs)).getD 0)

/-- Python `int(...)` on an attribute value: identity on ints, parse on strings. -/
def pyInt : AttrVal → Int
  | .int n => n
  | .str s => pyParseInt s

/-- Python `str(...)` on an attribute value, as `str.format` applies it. -/
def pyStr : AttrVal → String
  | .str s => s
  | .int n => toString n

/-- Python `elem.attrib.get(k, d)`. -/
def attribGetD (e : Element) (k : String) (d : AttrVal) : AttrVal :=
  match e.attrib.find? (fun p => p.1 == k) with
  | some p => p.2
  | none => d

/-- Python `elem.attrib[k] = v` (dict assignment: replace or append). -/
def setAttr (e : Element) (k : String) (v : AttrVal) : Element :=
  if e.attrib.any (fun p => p.1 == k) then
    { e with attrib := e.attrib.map (fun p => if p.1 == k then (k, v) else p) }
  else
    { e with attrib := e.attrib ++ [(k, v)] }

/-- Python `elem.findall(tag)`: direct children with the given tag, in
document order. Namespace prefixes are elided: tag `"S"` stands for the
expanded `"urn:mpeg:dash:schema:mpd:2011 S"` tag. -/
def findall (e : Element) (tag : String) : List Element :=
  e.children.filter (fun c => c.tag == tag)

/-- Python `elem.find(tag)`: first direct child with the given tag, if any. -/
def findChild (e : Element) (tag : String) : Option Element :=
  e.children.find? (fun c => c.tag == tag)

/-- Python `url.rfind("/")` then `url[: idx + 1]`: longest prefix ending in
a slash, or `none` when the string has no slash. -/
def upToLastSlash : List Char → Option (List Char)
  | [] => none
  | c :: cs =>
      match upToLastSlash cs with
      | some t => some (c :: t)
      | none => if c == '/' then some [c] else none

/-- Module-level `baseUrl` (dashproxy.py lines 48-53): the directory part
of a URL, or the URL itself when it contains no slash. -/
def baseUrl (url : String) : String :=
  match upToLastSlash url.toList with
  | some p => String.mk p
  | none => url

/-- Python `s.startswith(pre)`. -/
def pyStartsWith (s pre : String) : Bool :=
  pre.toList.isPrefixOf s.toList

/-- DashProxy.get_base_url (dashproxy.py lines 166-178). Faithful points:
the Location lookup uses `is not None`, while the BaseUrl lookup guards
with `if baseUrlNode:` — Python element truthiness, false for an element
without child elements — and the queried tag is `BaseUrl`, not the DASH
manifest tag `BaseURL`. -/
def get_base_url (selfMpd : String) (mpd : Element) : String :=
  let b0 := baseUrl selfMpd
  let b1 := match findChild mpd "Location" with
    | some location => baseUrl location.text
    | none => b0
  match findChild mpd "BaseUrl" with
  | some node =>
      if node.children.isEmpty then b1
      else if pyStartsWith node.text "http://" || pyStartsWith node.text "https://" then
        baseUrl node.text
      else b1 ++ node.text
  | none => b1

/-- Value triple of a RepAddr (dashproxy.py lines 56-69). The Python class
defines neither `__eq__` nor `__hash__`; this structure carries the VALUE
only, and object identity is modelled separately by a token where it
matters (DashProxy.downloaders dict keys). -/
structure RepAddrV where
  period_idx : Nat
  adaptation_set_idx : Nat
  representation_idx : Nat
deriving DecidableEq

/-- MpdLocator.adaptation_set (dashproxy.py lines 99-103); list indexing
that can fail (IndexError) is modelled by `Option`. -/
def adaptation_set (mpd : Element) (a : RepAddrV) : Option Element :=
  ((findall mpd "Period").get? a.period_idx).bind
    (fun p => (findall p "AdaptationSet").get? a.adaptation_set_idx)

/-- MpdLocator.representation (dashproxy.py lines 80-84). -/
def representation (mpd : Element) (a : RepAddrV) : Option Element :=
  (adaptation_set mpd a).bind
    (fun asNode => (findall asNode "Representation").get? a.representation_idx)

/-- MpdLocator.segment_template (dashproxy.py lines 86-93): the
Representation's own SegmentTemplate if present, else the enclosing
AdaptationSet's. -/
def segment_template (mpd : Element) (a : RepAddrV) : Option Element :=
  (representation mpd a).bind (fun rep =>
    match findChild rep "SegmentTemplate" with
    | some st => some st
    | none => (adaptation_set mpd a).bind (fun asNode => findChild asNode "SegmentTemplate"))

/-- MpdLocator.segment_timeline (dashproxy.py lines 95-97). -/
def segment_timeline (mpd : Element) (a : RepAddrV) : Option Element :=
  (segment_template mpd a).bind (fun st => findChild st "SegmentTimeline")

/-- MpdLocator.base_url (dashproxy.py lines 76-78); note this one queries
the correctly-capitalized tag `BaseURL`. -/
def base_url_node (mpd : Element) (a : RepAddrV) : Option Element :=
  (representation mpd a).bind (fun rep => findChild rep "BaseURL")

/-- Tag of timeline S elements (namespace elided). -/
def sTag : String := "S"

/-- Inner rebuild loop `for _ in range(0, repeat + 1)` of
DashDownloader.handle_mpd (dashproxy.py lines 287-294): emits `count`
elements whose attributes are exactly the int-valued `d` and `i`
(`idx + 1` with `idx` the running 0-based counter); the compact entry's
`t` and `r` attributes are NOT carried over. -/
def mkRun (d : Int) : Nat → Nat → List Element
  | _, 0 => []
  | idx, Nat.succ n =>
      { tag := sTag,
        attrib := [("d", AttrVal.int d), ("i", AttrVal.int (Int.ofNat idx + 1))],
        text := "", children := [] } :: mkRun d (idx + 1) n

/-- Outer rebuild loop of DashDownloader.handle_mpd (dashproxy.py lines
283-294): each compact S entry contributes `max 0 (r + 1)` rebuilt
elements (Python `range(0, repeat + 1)`), with the sequence counter `idx`
threaded across entries. -/
def expand_segments : List Element → Nat → List Element
  | [], _ => []
  | s :: rest, idx =>
      let d := pyInt (attribGetD s "d" (AttrVal.str "0"))
      let r := pyInt (attribGetD s "r" (AttrVal.str "0"))
      let k := (r + 1).toNat
      mkRun d idx k ++ expand_segments rest (idx + k)

/-- Net effect of lines 280-294 on the SegmentTimeline's child list: all
S entries are removed (`segment_timeline.remove`) and the rebuilt
elements are inserted at positions 0,1,2,…; any non-S children remain
after them. -/
def expand_timeline_children (cs : List Element) : List Element :=
  expand_segments (cs.filter (fun c => c.tag == sTag)) 0
    ++ cs.filter (fun c => !(c.tag == sTag))

/-- Start-time assignment loop of DashDownloader.handle_mpd (dashproxy.py
lines 297-304): `next_time` starts at 0; a segment without `t` (get
defaults to "-1") receives `t := next_time`, a segment with `t` resets
the clock to it; then the clock advances by the segment's `d`. -/
def assign_times : Int → List Element → List Element
  | _, [] => []
  | next, s :: rest =>
      let current := pyInt (attribGetD s "t" (AttrVal.str "-1"))
      let s2 := if current == -1 then setAttr s "t" (AttrVal.int next) else s
      let base := if current == -1 then next else current
      s2 :: assign_times (base + pyInt (attribGetD s2 "d" (AttrVal.str "0"))) rest

/-- Sequence number of a rebuilt segment element (its `i` attribute). -/
def seqNumOf (s : Element) : Int := pyInt (attribGetD s "i" (AttrVal.str "0"))

/-- Start time of a processed segment element (its `t` attribute). -/
def startTimeOf (s : Element) : Int := pyInt (attribGetD s "t" (AttrVal.str "0"))

/-- Segment descriptors `(sequence_number, start_time)` the code derives
from a timeline's child list: rebuild (lines 283-294), then the
start-time loop over `findall("mpd:S")` of the rewritten timeline
(lines 297-304), read off in download order. -/
def descriptors (timelineChildren : List Element) : List (Int × Int) :=
  (assign_times 0 (expand_segments (timelineChildren.filter (fun c => c.tag == sTag)) 0)).map
    (fun s => (seqNumOf s, startTimeOf s))

/-- Compact S entry exactly as read from manifest XML: string attribute
values, `r` and `t` optional. -/
def sElemStr (d : String) (r : Option String) (t : Option String) : Element :=
  { tag := sTag,
    attrib := [("d", AttrVal.str d)]
      ++ (match r with | some v => [("r", AttrVal.str v)] | none => [])
      ++ (match t with | some v => [("t", AttrVal.str v)] | none => []),
    text := "", children := [] }

/-- Compact timeline entry as the spec's data model states it: integer
duration, non-negative repeat count, optional explicit start time. -/
structure CompactEntry where
  duration : Int
  repeatCount : Nat
  start : Option Int

/-- Embed a compact entry as a timeline S element with int attribute
values (the values `int(...)` yields when the code reads the attributes). -/
def CompactEntry.toElem (e : CompactEntry) : Element :=
  { tag := sTag,
    attrib := [("d", AttrVal.int e.duration), ("r", AttrVal.int (Int.ofNat e.repeatCount))]
      ++ (match e.start with | some v => [("t", AttrVal.int v)] | none => []),
    text := "", children := [] }

/-- Consecutive integers `start, start+1, …` of the given length: the
shape of a strictly increasing gap-free run. -/
def seqInts : Int → Nat → List Int
  | _, 0 => []
  | s, Nat.succ n => s :: seqInts (s + 1) n

/-- Opening brace character (written by code point to keep it out of
string literals). -/
def lbrace : Char := Char.ofNat 123

/-- Closing brace character. -/
def rbrace : Char := Char.ofNat 125

/-- Python `s.replace(pat, repl)` worker: leftmost non-overlapping
occurrences, replacements not rescanned. Fuel-based so the kernel can
evaluate it; fuel equal to the input length suffices because every step
consumes at least one character (all patterns used are nonempty). -/
def replaceAux (pat repl : List Char) : Nat → List Char → List Char
  | _, [] => []
  | 0, s => s
  | Nat.succ fuel, c :: cs =>
      if pat.isPrefixOf (c :: cs) then
        repl ++ replaceAux pat repl fuel ((c :: cs).drop pat.length)
      else c :: replaceAux pat repl fuel cs

/-- Python `s.replace(pat, repl)` for nonempty patterns. -/
def pyReplace (s pat repl : String) : String :=
  String.mk (replaceAux pat.toList repl.toList s.toList.length s.toList)

/-- Split a character list at the first closing brace: the field name and
the remainder; `none` when no closing brace follows. -/
def splitAtRBrace : List Char → Option (List Char × List Char)
  | [] => none
  | c :: cs =>
      if c == rbrace then some ([], cs)
      else match splitAtRBrace cs with
        | some (f, r) => some (c :: f, r)
        | none => none

/-- Python `s.format(**args)` worker, fuel-based. Replacement fields are
plain keyword names (the only fields the program ever constructs); a
missing key is a KeyError, modelled as `Except.error` carrying the key;
doubled braces are literal-brace escapes; a lone brace is a ValueError.
Unused keys in `args` are ignored, as in Python. -/
def formatAux (args : List (String × String)) : Nat → List Char → Except String (List Char)
  | 0, _ => Except.error "format fuel exhausted"
  | Nat.succ _, [] => Except.ok []
  | Nat.succ fuel, c :: cs =>
      if c == lbrace then
        match cs with
        | [] => Except.error "single brace"
        | c2 :: cs2 =>
            if c2 == lbrace then (formatAux args fuel cs2).map (fun t => lbrace :: t)
            else match splitAtRBrace (c2 :: cs2) with
              | none => Except.error "single brace"
              | some (field, rest) =>
                  match args.find? (fun p => p.1 == String.mk field) with
                  | some p => (formatAux args fuel rest).map (fun t => p.2.toList ++ t)
                  | none => Except.error (String.mk field)
      else if c == rbrace then
        match cs with
        | c2 :: cs2 =>
            if c2 == rbrace then (formatAux args fuel cs2).map (fun t => rbrace :: t)
            else Except.error "single brace"
        | [] => Except.error "single brace"
      else (formatAux args fuel cs).map (fun t => c :: t)

/-- Python `s.format(**args)`. -/
def pyFormat (args : List (String × String)) (s : String) : Except String String :=
  (formatAux args (s.toList.length + 1) s.toList).map String.mk

/-- DashDownloader.render_template (dashproxy.py lines 321-337). Only the
three literal markers are replaced, and the width-5 number marker maps to
an UNPADDED format field (the source's TODO on line 327 notes that
printf-width handling is unimplemented). A KeyError from `format` (marker
present but its value absent) propagates as `Except.error`. -/
def render_template (tpl : String) (rep0 segment : Option Element) : Except String String :=
  let t1 := pyReplace tpl "$RepresentationID$" "{representation_id}"
  let t2 := pyReplace t1 "$Time$" "{time}"
  let t3 := pyReplace t2 "$Number%05d$" "{number}"
  let args1 := match rep0 with
    | some r => [("representation_id", pyStr (attribGetD r "id" (AttrVal.str "")))]
    | none => []
  let args2 := match segment with
    | some s => [("time", pyStr (attribGetD s "t" (AttrVal.str ""))),
                 ("number", pyStr (attribGetD s "i" (AttrVal.str "")))]
    | none => []
  pyFormat (args1 ++ args2) t3

/-- Observable actions of the downloader, in program order. -/
inductive Event where
  | infoLog (msg : String)
  | fetched (url : String)
  | persisted (path : String) (body : String)
  | errorLog (url : String) (status : Nat)
deriving DecidableEq

/-- Query-string stripping performed by DashDownloader.write
(dashproxy.py line 343): `dest.split("?")[0]`. The join with the output
directory is elided (a fixed prefix). -/
def stripQuery (s : String) : String :=
  String.mk (s.toList.takeWhile (fun c => !(c == '?')))

/-- Python `r.status_code >= 200 and r.status_code < 300`. -/
def isSuccessStatus (st : Nat) : Bool := decide (200 ≤ st ∧ st < 300)

/-- DashDownloader.download_template (dashproxy.py lines 307-319): render
the template, log, GET the full URL, persist the body on a 2xx status and
log an error otherwise — in both cases returning normally. A rendering
failure (KeyError) is an exception that aborts the caller. `fetch` is the
HTTP oracle and `k` the index of the next GET call. -/
def download_template (fetch : Nat → String → Nat × String) (base : String) (k : Nat)
    (tpl : String) (rep0 segment : Option Element) : Except String (List Event × Nat) :=
  match render_template tpl rep0 segment with
  | Except.error e => Except.error e
  | Except.ok dest =>
      let destUrl := base ++ dest
      let r := fetch k destUrl
      if isSuccessStatus r.1 then
        Except.ok ([Event.infoLog dest, Event.fetched destUrl,
                    Event.persisted (stripQuery dest) r.2], k + 1)
      else
        Except.ok ([Event.infoLog dest, Event.fetched destUrl,
                    Event.errorLog destUrl r.1], k + 1)

/-- Media-segment loop of DashDownloader.handle_mpd (dashproxy.py lines
297-305). Faithful point: line 305 is
`self.download_template(media_template, rep, segment)`, but the
positional parameters after `template` are `headers` and `cookies`, so
the representation and segment land in the headers/cookies slots and the
renderer runs with `representation=None, segment=None`. -/
def media_loop (fetch : Nat → String → Nat × String) (base tpl : String) :
    Nat → Int → List Element → Except String (List Event × Nat)
  | k, _, [] => Except.ok ([], k)
  | k, next, s :: rest =>
      let current := pyInt (attribGetD s "t" (AttrVal.str "-1"))
      let s2 := if current == -1 then setAttr s "t" (AttrVal.int next) else s
      let base_t := if current == -1 then next else current
      let next2 := base_t + pyInt (attribGetD s2 "d" (AttrVal.str "0"))
      match download_template fetch base k tpl none none with
      | Except.error e => Except.error e
      | Except.ok (evs, k2) =>
          match media_loop fetch base tpl k2 next2 rest with
          | Except.error e => Except.error e
          | Except.ok (evs2, k3) => Except.ok (evs ++ evs2, k3)

/-- Templated-branch media processing of DashDownloader.handle_mpd: the
timeline children are rewritten in place (lines 280-294), then the loop
over `segment_timeline.findall("mpd:S")` runs (lines 297-305). -/
def handle_mpd_media (fetch : Nat → String → Nat × String) (base tpl : String) (k : Nat)
    (timelineChildren : List Element) : Except String (List Event × Nat) :=
  media_loop fetch base tpl k 0
    ((expand_timeline_children timelineChildren).filter (fun c => c.tag == sTag))

/-- Events one media-segment iteration produces when rendering succeeds
with constant result `d`: exactly one GET (call index `i`), then a
persist on success or an error log on failure — independent of every
other segment's outcome. -/
def segEvents (fetch : Nat → String → Nat × String) (base d : String) (i : Nat) : List Event :=
  let destUrl := base ++ d
  let r := fetch i destUrl
  if isSuccessStatus r.1 then
    [Event.infoLog d, Event.fetched destUrl, Event.persisted (stripQuery d) r.2]
  else
    [Event.infoLog d, Event.fetched destUrl, Event.errorLog destUrl r.1]

/-- DashProxy session state: the `downloaders` dict. RepAddr defines
neither `__eq__` nor `__hash__`, so dict keys compare by OBJECT IDENTITY;
each entry is the identity token of the RepAddr object used as key,
paired with its value triple. `nextToken` allocates fresh identities. -/
structure ProxyState where
  nextToken : Nat
  downloaders : List (Nat × RepAddrV)
deriving DecidableEq

/-- Observable actions of the proxy session loop. -/
inductive PEvent where
  | alreadyStarted (addr : RepAddrV)
  | created (token : Nat) (addr : RepAddrV)
  | driven (token : Nat) (addr : RepAddrV)
deriving DecidableEq

/-- DashProxy.ensure_downloader (dashproxy.py lines 212-220): on a dict
miss a new DashDownloader is created, stored, and immediately driven via
`downloader.handle_mpd`; on a hit only a log line is emitted — the
existing downloader is NOT driven against the new manifest. -/
def ensure_downloader (st : ProxyState) (token : Nat) (addr : RepAddrV) :
    ProxyState × List PEvent :=
  if st.downloaders.any (fun p => p.1 == token) then
    (st, [PEvent.alreadyStarted addr])
  else
    ({ st with downloaders := st.downloaders ++ [(token, addr)] },
     [PEvent.created token addr, PEvent.driven token addr])

/-- Representation enumeration of DashProxy.handle_mpd (dashproxy.py
lines 190-201): for each AdaptationSet x Representation index pair of the
first Period, a FRESH RepAddr object is constructed
(`RepAddr(0, as_idx, rep_idx)`) — modelled by allocating a fresh identity
token — and ensure_downloader is called with it. -/
def proxy_cycle (st : ProxyState) (pairs : List (Nat × Nat)) : ProxyState × List PEvent :=
  pairs.foldl
    (fun acc p =>
      let token := acc.1.nextToken
      let st1 := { acc.1 with nextToken := token + 1 }
      let r := ensure_downloader st1 token (RepAddrV.mk 0 p.1 p.2)
      (r.1, acc.2 ++ r.2))
    (st, [])

/-- Python `r.status_code < 200 or r.status_code >= 300`. -/
def isFailStatus (st : Nat) : Bool := decide (st < 200 ∨ 300 ≤ st)

/-- DashProxy.refresh_mpd (dashproxy.py lines 148-164), with handle_mpd
abstracted to recording the parsed body. The input lists the successive
HTTP responses (status, body) the successive GETs of the manifest URL
return; the output lists the bodies parsed and handled, in order.
Faithful point: the non-2xx branch performs the recursive delayed retry
and then FALLS THROUGH (no return/else), so after the retry returns the
failed response's own body is also parsed and handled. -/
def refresh_mpd : List (Nat × String) → List String
  | [] => []
  | r :: rest =>
      if isFailStatus r.1 then refresh_mpd rest ++ [r.2]
      else [r.2]

/-! Concrete inputs used by the claim theorems -/

/-- Compact timeline `[{d:4,r:2},{d:5,t:20}]` exactly as parsed from a
manifest (string attribute values). -/
def c2_timeline : List Element := [sElemStr "4" (some "2") none, sElemStr "5" none (some "20")]

/-- Compact timeline `[{d:4,r:2}]`. -/
def c5_timeline : List Element := [sElemStr "4" (some "2") none]

/-- Compact timeline `[{d:4}]`. -/
def c1_timeline : List Element := [sElemStr "4" none none]

/-- Rebuilt segment element with sequence number 3 (the shape the
expansion loop produces). -/
def c6_segment : Element :=
  { tag := sTag, attrib := [("d", AttrVal.int 4), ("i", AttrVal.int 3), ("t", AttrVal.int 8)],
    text := "", children := [] }

/-- Manifest with neither Location nor BaseURL child. -/
def c8_mpd_plain : Element := { tag := "MPD", attrib := [], text := "", children := [] }

/-- Manifest with a Location child pointing at `http://h/x/alt.mpd`. -/
def c8_mpd_location : Element :=
  { tag := "MPD", attrib := [], text := "",
    children := [{ tag := "Location", attrib := [], text := "http://h/x/alt.mpd", children := [] }] }

/-- Manifest with an absolute BaseURL child (the DASH tag, text-only node). -/
def c8_mpd_baseurl : Element :=
  { tag := "MPD", attrib := [], text := "",
    children := [{ tag := "BaseURL", attrib := [], text := "http://cdn/x/", children := [] }] }

/-- Manifest whose node even matches the mis-capitalized tag the code
queries (`BaseUrl`), still text-only (no child elements). -/
def c8_mpd_baseurl_mistag : Element :=
  { tag := "MPD", attrib := [], text := "",
    children := [{ tag := "BaseUrl", attrib := [], text := "http://cdn/x/", children := [] }] }

/-- The representation address `(0,0,0)`. -/
def addr000 : RepAddrV := RepAddrV.mk 0 0 0

/-- Fresh proxy session state. -/
def c3_state0 : ProxyState := ProxyState.mk 0 []

/-- First refresh cycle over a manifest with one AdaptationSet and one
Representation. -/
def c3_cycle1 : ProxyState × List PEvent := proxy_cycle c3_state0 [(0, 0)]

/-- Second refresh cycle over the same manifest. -/
def c3_cycle2 : ProxyState × List PEvent := proxy_cycle c3_cycle1.1 [(0, 0)]

/-! Claim theorems -/

/-- C1: the claim says each segment descriptor is rendered into the media
template together with the representation id and fetched, in ascending
sequence order. The code does not: line 305 passes `rep` and `segment`
into the `headers`/`cookies` positional slots of `download_template`, so
the renderer runs with `representation=None, segment=None`, and for any
media template containing a marker (here `seg-$Time$.mp4`, against the
one-segment timeline `[{d:4}]`) rendering raises `KeyError('time')`
before any request is issued — no URL is rendered from the descriptor and
nothing is fetched or persisted. -/
theorem c1_media_template_rendered_without_descriptor
    (fetch : Nat → String → Nat × String) (base : String) :
    handle_mpd_media fetch base "seg-$Time$.mp4" 0 c1_timeline = Except.error "time" := rfl

/-- C2: the claim says an entry with explicit `t` resets the running
clock, and that `[{d:4,r:2},{d:5,t:20}]` expands to
`[(1,0),(2,4),(3,8),(4,20),(5,25)]`. The code instead produces
`[(1,0),(2,4),(3,8),(4,12)]`: the rebuild loop (lines 284-294) creates
elements carrying only `d` and `i`, dropping `t`, so the explicit-start
branch of line 303 never fires and the fourth descriptor continues the
duration clock at 12 instead of resetting to 20. -/
theorem c2_explicit_start_time_dropped :
    descriptors c2_timeline = [(1, 0), (2, 4), (3, 8), (4, 12)]
    ∧ descriptors c2_timeline ≠ [(1, 0), (2, 4), (3, 8), (4, 20), (5, 25)] := by
  exact ⟨by decide, by decide⟩

/-- C3: the claim says a refresh cycle reuses the existing session for an
already-seen address and drives it against the new manifest. The code
does not: `RepAddr` defines neither `__eq__` nor `__hash__`, so the
membership test `rep_addr in self.downloaders` compares object identity
and never matches the fresh `RepAddr` constructed each cycle — the second
cycle over the same one-representation manifest creates and drives a
brand-new `DashDownloader` (fresh identity token 1) for the same address
value, leaving two sessions in the dict; and even on an identity hit the
code only logs, never driving the existing session. -/
theorem c3_existing_session_not_reused :
    c3_cycle1.2 = [PEvent.created 0 addr000, PEvent.driven 0 addr000]
    ∧ c3_cycle2.2 = [PEvent.created 1 addr000, PEvent.driven 1 addr000]
    ∧ c3_cycle2.1.downloaders = [(0, addr000), (1, addr000)] := by
  exact ⟨by decide, by decide, by decide⟩

/-- C5: the claim says expansion leaves the compact timeline entries in
the manifest tree unchanged. The code rewrites the timeline in place:
for the one-entry timeline `[{d:4,r:2}]` the S children after expansion
are three rebuilt elements (attributes `d`,`i` only) — not the original
single compact entry. -/
theorem c5_expansion_mutates_timeline :
    expand_timeline_children c5_timeline ≠ c5_timeline
    ∧ (expand_timeline_children c5_timeline).length = 3
    ∧ c5_timeline.length = 1 :=
  ⟨fun h => absurd (congrArg List.length h) (by decide), rfl, rfl⟩

/-- C6: the claim says the sequence-number marker is zero-padded to the
width requested in the marker, so `$Number%05d$` applied to sequence
number 3 yields `"00003"`. The code maps `$Number%05d$` to an unpadded
format field (the TODO on line 327 records that printf-width handling is
unimplemented), so it renders `"3"`. -/
theorem c6_number_marker_not_padded :
    render_template "$Number%05d$" none (some c6_segment) = Except.ok "3"
    ∧ render_template "$Number%05d$" none (some c6_segment) ≠ Except.ok "00003" :=
  ⟨rfl, fun h => absurd (Except.ok.inj h) (by decide)⟩

/-- C8: base resolution from the manifest's own URL and from a Location
node behave as claimed (first two conjuncts), but a BaseURL node never
overrides anything: `get_base_url` queries the mis-capitalized tag
`BaseUrl`, and even a node carrying that tag is skipped by the
`if baseUrlNode:` element-truthiness guard because a text-only node has
no child elements — so with an absolute `<BaseURL>http://cdn/x/</BaseURL>`
the resolved base stays the manifest directory, contradicting the claim's
override priority. -/
theorem c8_baseurl_node_never_consulted :
    get_base_url "http://h/a/b/manifest.mpd" c8_mpd_plain = "http://h/a/b/"
    ∧ get_base_url "http://h/a/b/manifest.mpd" c8_mpd_location = "http://h/x/"
    ∧ get_base_url "http://h/a/b/manifest.mpd" c8_mpd_baseurl = "http://h/a/b/"
    ∧ get_base_url "http://h/a/b/manifest.mpd" c8_mpd_baseurl_mistag = "http://h/a/b/"
    ∧ get_base_url "http://h/a/b/manifest.mpd" c8_mpd_baseurl ≠ "http://cdn/x/" :=
  ⟨rfl, rfl, rfl, rfl, by decide⟩

/-- C7: for every manifest and address at which the Representation
resolves, `segment_template` returns the Representation's own
SegmentTemplate when it has one (regardless of what the AdaptationSet
owns), and otherwise returns exactly the AdaptationSet-level lookup — in
particular `none` when neither owns one. -/
theorem c7_segment_template_fallback (mpd : Element) (a : RepAddrV) (asNode rep : Element)
    (has : adaptation_set mpd a = some asNode)
    (hrep : representation mpd a = some rep) :
    (∀ st, findChild rep "SegmentTemplate" = some st → segment_template mpd a = some st)
    ∧ (findChild rep "SegmentTemplate" = none
        → segment_template mpd a = findChild asNode "SegmentTemplate") := by
  constructor
  · intro st hst
    simp [segment_template, hrep, hst]
  · intro hnone
    simp [segment_template, hrep, hnone, has]

/-- Representation-level SegmentTemplate of the C7 witness manifest. -/
def c7_st_rep : Element :=
  { tag := "SegmentTemplate", attrib := [("media", AttrVal.str "rep-$Time$.mp4")],
    text := "", children := [] }

/-- AdaptationSet-level SegmentTemplate of the C7 witness manifest. -/
def c7_st_as : Element :=
  { tag := "SegmentTemplate", attrib := [("media", AttrVal.str "as-$Time$.mp4")],
    text := "", children := [] }

/-- Representation of the C7 witness manifest (owns a template). -/
def c7_rep : Element :=
  { tag := "Representation", attrib := [("id", AttrVal.str "v0")],
    text := "", children := [c7_st_rep] }

/-- AdaptationSet of the C7 witness manifest (also owns a template). -/
def c7_as : Element :=
  { tag := "AdaptationSet", attrib := [], text := "", children := [c7_st_as, c7_rep] }

/-- C7 witness manifest: one Period, one AdaptationSet, one
Representation, templates at both levels. -/
def c7_mpd : Element :=
  { tag := "MPD", attrib := [], text := "",
    children := [{ tag := "Period", attrib := [], text := "", children := [c7_as] }] }

/-- C7 witness: at address (0,0,0) of the witness manifest both levels own
a SegmentTemplate and the representation-level one wins. -/
theorem c7_segment_template_fallback_witness :
    adaptation_set c7_mpd addr000 = some c7_as
    ∧ representation c7_mpd addr000 = some c7_rep
    ∧ segment_template c7_mpd addr000 = some c7_st_rep :=
  ⟨rfl, rfl, (c7_segment_template_fallback c7_mpd addr000 c7_as c7_rep rfl rfl).1 c7_st_rep rfl⟩

/-- C10: when the manifest GETs return any run of non-success responses
followed by a success, every failed response's body is parsed and handled
in addition to the successful one — the retry branch falls through, so
the failed bodies are handled after the recursive retry returns (in
reverse order of their failures). -/
theorem c10_failed_manifest_body_also_handled
    (fails : List (Nat × String)) (s : Nat × String) (rest : List (Nat × String))
    (hf : ∀ r ∈ fails, isFailStatus r.1 = true) (hs : isFailStatus s.1 = false) :
    refresh_mpd (fails ++ s :: rest) = s.2 :: (fails.map Prod.snd).reverse := by
  induction fails with
  | nil => simp [refresh_mpd, hs]
  | cons r tl ih =>
      have hr : isFailStatus r.1 = true := hf r (by simp)
      have htl : ∀ x ∈ tl, isFailStatus x.1 = true := fun x hx => hf x (by simp [hx])
      simp [refresh_mpd, hr, ih htl]

/-- C10 witness: a 500 response with body "failedbody" followed by a 200
response with body "goodbody" results in both bodies being handled, the
failed one last. -/
theorem c10_failed_manifest_body_also_handled_witness :
    isFailStatus 500 = true ∧ isFailStatus 200 = false
    ∧ refresh_mpd [(500, "failedbody"), (200, "goodbody")] = ["goodbody", "failedbody"] :=
  ⟨rfl, rfl, by
    have h := c10_failed_manifest_body_also_handled [(500, "failedbody")] (200, "goodbody") []
      (by decide) (by decide)
    simpa using h⟩

/-! Supporting lemmas for the universal claims C4 and C9 -/

theorem seqInts_length (s : Int) (n : Nat) : (seqInts s n).length = n := by
  induction n generalizing s with
  | zero => rfl
  | succ m ih => simp [seqInts, ih]

theorem seqInts_append (s : Int) (a b : Nat) :
    seqInts s (a + b) = seqInts s a ++ seqInts (s + Int.ofNat a) b := by
  induction a generalizing s with
  | zero => simp [seqInts]
  | succ m ih =>
      have h1 : m + 1 + b = (m + b) + 1 := by omega
      have h2 : s + 1 + Int.ofNat m = s + Int.ofNat (m + 1) := by
        simp only [Int.ofNat_eq_coe]
        omega
      rw [h1]
      simp only [seqInts, List.cons_append, ih (s + 1), h2]

theorem mkRun_length (d : Int) (n : Nat) : ∀ idx : Nat, (mkRun d idx n).length = n := by
  induction n with
  | zero => intro idx; rfl
  | succ m ih => intro idx; simp [mkRun, ih]

theorem mkRun_map_seq (d : Int) (n : Nat) : ∀ idx : Nat,
    (mkRun d idx n).map seqNumOf = seqInts (Int.ofNat idx + 1) n := by
  induction n with
  | zero => intro idx; rfl
  | succ m ih =>
      intro idx
      have hhead : seqNumOf
          { tag := sTag,
            attrib := [("d", AttrVal.int d), ("i", AttrVal.int (Int.ofNat idx + 1))],
            text := "", children := [] } = Int.ofNat idx + 1 := rfl
      have harg : Int.ofNat (idx + 1) + 1 = Int.ofNat idx + 1 + 1 := by
        simp only [Int.ofNat_eq_coe]
        omega
      simp only [mkRun, List.map_cons, seqInts, hhead, ih (idx + 1), harg]

theorem toElem_d (e : CompactEntry) :
    pyInt (attribGetD e.toElem "d" (AttrVal.str "0")) = e.duration := rfl

theorem toElem_r (e : CompactEntry) :
    pyInt (attribGetD e.toElem "r" (AttrVal.str "0")) = Int.ofNat e.repeatCount := rfl

theorem expand_segments_cons_toElem (e : CompactEntry) (l : List Element) (idx : Nat) :
    expand_segments (e.toElem :: l) idx
      = mkRun e.duration idx (e.repeatCount + 1)
        ++ expand_segments l (idx + (e.repeatCount + 1)) := by
  have hk : (Int.ofNat e.repeatCount + 1).toNat = e.repeatCount + 1 := by
    simp only [Int.ofNat_eq_coe]
    omega
  simp only [expand_segments, toElem_d, toElem_r, hk]

theorem expand_toElem_map_seq (entries : List CompactEntry) : ∀ idx : Nat,
    (expand_segments (entries.map CompactEntry.toElem) idx).map seqNumOf
      = seqInts (Int.ofNat idx + 1) ((entries.map (fun e => e.repeatCount + 1)).sum) := by
  induction entries with
  | nil => intro idx; rfl
  | cons e tl ih =>
      intro idx
      rw [List.map_cons, expand_segments_cons_toElem, List.map_append, mkRun_map_seq,
          ih (idx + (e.repeatCount + 1)), List.map_cons, List.sum_cons,
          seqInts_append (Int.ofNat idx + 1) (e.repeatCount + 1)
            ((tl.map (fun x => x.repeatCount + 1)).sum)]
      have h2 : Int.ofNat (idx + (e.repeatCount + 1)) + 1
          = Int.ofNat idx + 1 + Int.ofNat (e.repeatCount + 1) := by
        simp only [Int.ofNat_eq_coe]
        omega
      rw [h2]

theorem find?_map_set (k k2 : String) (v : AttrVal) (h : k2 ≠ k)
    (l : List (String × AttrVal)) :
    (l.map (fun p => if p.1 == k then (k, v) else p)).find? (fun p => p.1 == k2)
      = l.find? (fun p => p.1 == k2) := by
  induction l with
  | nil => rfl
  | cons p tl ih =>
      by_cases hpk : p.1 = k
      · have hb : (p.1 == k) = true := beq_iff_eq.mpr hpk
        have hb2 : (p.1 == k2) = false := by
          refine beq_eq_false_iff_ne.mpr ?_
          rw [hpk]
          exact fun hh => h hh.symm
        have hb3 : (k == k2) = false := beq_eq_false_iff_ne.mpr (fun hh => h hh.symm)
        simp only [List.map_cons, if_pos hb, List.find?_cons, hb2, hb3]
        exact ih
      · have hb : (p.1 == k) = false := beq_eq_false_iff_ne.mpr hpk
        simp only [List.map_cons, hb, Bool.false_eq_true, if_false, List.find?_cons]
        by_cases hp2 : p.1 = k2
        · have hb2 : (p.1 == k2) = true := beq_iff_eq.mpr hp2
          simp only [hb2]
        · have hb2 : (p.1 == k2) = false := beq_eq_false_iff_ne.mpr hp2
          simp only [hb2]
          exact ih

theorem attribGetD_setAttr_ne (s : Element) (k k2 : String) (v d0 : AttrVal) (h : k2 ≠ k) :
    attribGetD (setAttr s k v) k2 d0 = attribGetD s k2 d0 := by
  unfold setAttr attribGetD
  by_cases hmem : s.attrib.any (fun p => p.1 == k) = true
  · rw [if_pos hmem]
    show (match (s.attrib.map (fun p => if p.1 == k then (k, v) else p)).find?
        (fun p => p.1 == k2) with
      | some p => p.2
      | none => d0) = _
    rw [find?_map_set k k2 v h s.attrib]
  · rw [if_neg hmem]
    show (match (s.attrib ++ [(k, v)]).find? (fun p => p.1 == k2) with
      | some p => p.2
      | none => d0) = _
    rw [List.find?_append]
    have hb3 : (k == k2) = false := beq_eq_false_iff_ne.mpr (fun hh => h hh.symm)
    have hone : List.find? (fun p => p.1 == k2) [(k, v)] = none := by
      simp only [List.find?_cons, hb3]
      rfl
    rw [hone]
    cases s.attrib.find? (fun p => p.1 == k2) <;> rfl

theorem seqNumOf_setAttr_t (s : Element) (v : AttrVal) :
    seqNumOf (setAttr s "t" v) = seqNumOf s := by
  unfold seqNumOf
  rw [attribGetD_setAttr_ne s "t" "i" v _ (by decide)]

theorem assign_times_map_seq (l : List Element) : ∀ next : Int,
    (assign_times next l).map seqNumOf = l.map seqNumOf := by
  induction l with
  | nil => intro next; rfl
  | cons s tl ih =>
      intro next
      simp only [assign_times, List.map_cons, ih]
      congr 1
      by_cases hc : (pyInt (attribGetD s "t" (AttrVal.str "-1")) == -1) = true
      · rw [if_pos hc]
        exact seqNumOf_setAttr_t s _
      · rw [if_neg hc]

theorem assign_times_length (l : List Element) (next : Int) :
    (assign_times next l).length = l.length := by
  have h := congrArg List.length (assign_times_map_seq l next)
  simpa using h

theorem filter_map_toElem (entries : List CompactEntry) :
    (entries.map CompactEntry.toElem).filter (fun c => c.tag == sTag)
      = entries.map CompactEntry.toElem := by
  induction entries with
  | nil => rfl
  | cons e tl ih =>
      rw [List.map_cons,
          @List.filter_cons_of_pos _ (fun c => c.tag == sTag) (CompactEntry.toElem e)
            (List.map CompactEntry.toElem tl)
            (show ((CompactEntry.toElem e).tag == sTag) = true from rfl),
          ih]

/-- C4: for every compact timeline (integer duration, non-negative repeat
count, optional explicit start), the descriptor list the code derives has
length equal to the sum of `repeat + 1` over the entries, and its
sequence numbers are exactly the consecutive run `1, 2, …, n` — strictly
increasing, starting at 1, with no gaps. -/
theorem c4_expansion_length_and_sequence (entries : List CompactEntry) :
    (descriptors (entries.map CompactEntry.toElem)).length
        = (entries.map (fun e => e.repeatCount + 1)).sum
    ∧ (descriptors (entries.map CompactEntry.toElem)).map Prod.fst
        = seqInts 1 ((entries.map (fun e => e.repeatCount + 1)).sum) := by
  unfold descriptors
  rw [filter_map_toElem]
  constructor
  · rw [List.length_map, assign_times_length]
    have h := congrArg List.length (expand_toElem_map_seq entries 0)
    rw [List.length_map, seqInts_length] at h
    exact h
  · rw [List.map_map]
    have hcomp : (Prod.fst ∘ fun s => (seqNumOf s, startTimeOf s)) = seqNumOf := rfl
    rw [hcomp, assign_times_map_seq, expand_toElem_map_seq]
    rfl

theorem download_template_ok (fetch : Nat → String → Nat × String) (base : String) (k : Nat)
    (tpl d : String) (h : render_template tpl none none = Except.ok d) :
    download_template fetch base k tpl none none
      = Except.ok (segEvents fetch base d k, k + 1) := by
  unfold download_template segEvents
  simp only [h]
  by_cases hs : isSuccessStatus (fetch k (base ++ d)).1 = true
  · simp [hs]
  · simp [hs]

/-- C9: whenever the (marker-free, hence renderable) media template
renders to a fixed path `d`, the media loop completes normally over every
segment list and every fetch oracle: each segment causes exactly one GET
(call indices `k, k+1, …`), a non-2xx status yields only an error-log
event for that segment (nothing persisted, no retry), and each segment's
events depend only on its own fetch outcome — a failure never aborts the
loop or affects later segments. -/
theorem c9_segment_fetch_failure_nonfatal
    (fetch : Nat → String → Nat × String) (base tpl d : String)
    (h : render_template tpl none none = Except.ok d)
    (segs : List Element) : ∀ (k : Nat) (next : Int),
    media_loop fetch base tpl k next segs
      = Except.ok
          (((List.range segs.length).map (fun j => segEvents fetch base d (k + j))).flatten,
           k + segs.length) := by
  induction segs with
  | nil =>
      intro k next
      simp [media_loop]
  | cons s rest ih =>
      intro k next
      simp only [media_loop, download_template_ok fetch base k tpl d h, ih]
      rw [List.length_cons, List.range_succ_eq_map, List.map_cons, List.map_map]
      have hfun : ((fun j => segEvents fetch base d (k + j)) ∘ Nat.succ)
          = (fun j => segEvents fetch base d (k + 1 + j)) := by
        funext j
        show segEvents fetch base d (k + (j + 1)) = segEvents fetch base d (k + 1 + j)
        congr 1
        omega
      rw [hfun]
      have hk : k + 1 + rest.length = k + (rest.length + 1) := by omega
      simp [List.flatten, hk]

/-- Fetch oracle for the C9 witness: the first GET fails with 500, every
later one succeeds with 200. -/
def c9_fetch : Nat → String → Nat × String :=
  fun i _ => if i == 0 then (500, "") else (200, "segdata")

/-- Two-segment timeline for the C9 witness. -/
def c9_segs : List Element := [sElemStr "4" none none, sElemStr "4" none none]

/-- C9 witness: with a marker-free template, a first-segment fetch
failure followed by a second-segment success, the loop still returns
normally having issued both GETs. -/
theorem c9_segment_fetch_failure_nonfatal_witness :
    render_template "seg.mp4" none none = Except.ok "seg.mp4"
    ∧ media_loop c9_fetch "http://h/" "seg.mp4" 0 0 c9_segs
        = Except.ok
            (((List.range c9_segs.length).map
                (fun j => segEvents c9_fetch "http://h/" "seg.mp4" (0 + j))).flatten,
             0 + c9_segs.length) :=
  ⟨rfl, c9_segment_fetch_failure_nonfatal c9_fetch "http://h/" "seg.mp4" "seg.mp4" rfl c9_segs 0 0⟩

end DashProxySpec
